import Mathlib

/-!
Shallow embedding of `src/server.js` (dm-comparator), a turn-based narrative
game server backed by SQLite with two language-model backends called via an
OpenAI-compatible API.

Modelling conventions:
* The SQLite tables `games` and `messages` become lists of structures held in
  a `Store`, together with the auto-increment counters for the two `id`
  columns.  `AUTOINCREMENT` ids grow by one per insert; rows are appended in
  insertion order, so the `messages` list of every store reachable from an
  empty database is sorted by `id` (the invariant `Store.WF`).
* `DATETIME DEFAULT CURRENT_TIMESTAMP` becomes the store's current clock
  value `now` (informational only; the code orders histories by `id`).
* SQL `ORDER BY <col> ASC/DESC` is embedded as an insertion sort of the
  filtered rows by the corresponding column.
* The two remote chat-completion calls are external effects; a backend is
  modelled as an oracle `List ChatMsg → Settled` from the submitted message
  sequence to the settlement (`fulfilled value` / `rejected reason`) of its
  promise, mirroring `Promise.allSettled`.
* Each fallible database callback gets an `Option String` error-injection
  parameter (`none` = the operation succeeded, `some err` = the callback was
  invoked with error message `err`), mirroring the `(err) => ...` callbacks.
-/

/-- A row of the `games` table. -/
structure Game where
  id : Nat
  system_prompt : String
  created_at : Nat
deriving Repr, DecidableEq

/-- A row of the `messages` table (`dm_id` is the branch id: 0 shared user,
1 and 2 the two model branches). -/
structure Message where
  id : Nat
  game_id : Nat
  dm_id : Nat
  role : String
  content : String
  timestamp : Nat
deriving Repr, DecidableEq

/-- A `role`/`content` pair, as selected by `getHistory` and as submitted to
the chat-completion API. -/
structure ChatMsg where
  role : String
  content : String
deriving Repr, DecidableEq

/-- The SQLite database plus its auto-increment counters and clock. -/
structure Store where
  games : List Game
  messages : List Message
  nextGameId : Nat
  nextMsgId : Nat
  now : Nat
deriving Repr, DecidableEq

/-- Settlement of one model-call promise, as inspected through
`Promise.allSettled` (`status === 'fulfilled' ? value : reason`). -/
inductive Settled where
  | fulfilled (value : String)
  | rejected (reason : String)
deriving Repr, DecidableEq

/-- JSON bodies produced by the handlers. -/
inductive Body where
  | error (msg : String)
  | startOk (gameId : Nat) (message dm1 dm2 : String)
  | turnOk (dm1 dm2 : String)
  | rows (rows : List Message)
  | games (rows : List Game)
  | deleteOk (message : String) (deleted : Nat)
deriving Repr, DecidableEq

/-- An HTTP response: status code plus JSON body (`res.json` alone means
status 200). -/
structure Http where
  status : Nat
  body : Body
deriving Repr, DecidableEq

/-- `ORDER BY id ASC` comparison on message rows. -/
def msgLe (a b : Message) : Prop := a.id ≤ b.id

instance : DecidableRel msgLe := fun a b => Nat.decLe a.id b.id

instance : IsTotal Message msgLe := ⟨fun a b => Nat.le_total a.id b.id⟩

instance : IsTrans Message msgLe := ⟨fun _ _ _ h1 h2 => Nat.le_trans h1 h2⟩

/-- Strict version of `msgLe`; reachable stores are sorted by it. -/
def msgLt (a b : Message) : Prop := a.id < b.id

instance : DecidableRel msgLt := fun a b => Nat.decLt a.id b.id

/-- `ORDER BY timestamp ASC` comparison on message rows. -/
def msgTimeLe (a b : Message) : Prop := a.timestamp ≤ b.timestamp

instance : DecidableRel msgTimeLe := fun a b => Nat.decLe a.timestamp b.timestamp

/-- `ORDER BY created_at DESC` comparison on game rows. -/
def gameCreatedDesc (a b : Game) : Prop := b.created_at ≤ a.created_at

instance : DecidableRel gameCreatedDesc := fun a b => Nat.decLe b.created_at a.created_at

/-- `saveMessage`: `INSERT INTO messages (game_id, dm_id, role, content)
VALUES (?, ?, ?, ?)`; the `id` is the next auto-increment value and the
`timestamp` defaults to the current time. -/
def saveMessage (gameId dmId : Nat) (role content : String) (s : Store) : Store :=
  { s with
    messages := s.messages ++ [⟨s.nextMsgId, gameId, dmId, role, content, s.now⟩],
    nextMsgId := s.nextMsgId + 1 }

/-- The rows scanned by `getHistory`'s query: `SELECT role, content FROM
messages WHERE game_id = ? AND (dm_id = 0 OR dm_id = ?) ORDER BY id ASC`,
before the projection to the two selected columns. -/
def historyRows (gameId dmId : Nat) (s : Store) : List Message :=
  List.insertionSort msgLe
    (s.messages.filter fun m => m.game_id == gameId && (m.dm_id == 0 || m.dm_id == dmId))

/-- `getHistory`: the `role`/`content` projection of `historyRows`.  A pure
read: it takes the store and returns a list, mutating nothing. -/
def getHistory (gameId dmId : Nat) (s : Store) : List ChatMsg :=
  (historyRows gameId dmId s).map fun m => ⟨m.role, m.content⟩

/-- Message sequence submitted by `callLlamaFastViaGroq` (backend identity
`llama-3.1-8b-instant`): system prompt, then the history pushed one element
at a time with stored role `model` rewritten to `assistant`, then the current
user input. -/
def callLlamaFastViaGroqMessages (system : String) (history : List ChatMsg)
    (currentInput : String) : List ChatMsg :=
  let messages : List ChatMsg := [⟨"system", system⟩]
  let messages := history.foldl
    (fun acc msg =>
      let role := if msg.role = "model" then "assistant" else msg.role
      acc ++ [⟨role, msg.content⟩])
    messages
  messages ++ [⟨"user", currentInput⟩]

/-- Message sequence submitted by `callLlamaSmartViaGroq` (backend identity
`llama-3.3-70b-versatile`); the construction duplicates
`callLlamaFastViaGroq`'s. -/
def callLlamaSmartViaGroqMessages (system : String) (history : List ChatMsg)
    (currentInput : String) : List ChatMsg :=
  let messages : List ChatMsg := [⟨"system", system⟩]
  let messages := history.foldl
    (fun acc msg =>
      let role := if msg.role = "model" then "assistant" else msg.role
      acc ++ [⟨role, msg.content⟩])
    messages
  messages ++ [⟨"user", currentInput⟩]

/-- Turn-handler settlement: `results[i].status === 'fulfilled' ?
results[i].value : "Error: " + results[i].reason`. -/
def settleTurn (r : Settled) : String :=
  match r with
  | .fulfilled v => v
  | .rejected reason => "Error: " ++ reason

/-- Start-handler settlement: `results[i].status === 'fulfilled' ?
results[i].value : "Error generando intro."`. -/
def settleIntro (r : Settled) : String :=
  match r with
  | .fulfilled v => v
  | .rejected _ => "Error generando intro."

/-- The fixed trigger instruction used in place of user input when generating
the two introductions. -/
def introTrigger : String :=
  "Narra la introducción de la aventura basándote en el contexto proporcionado. Sé breve y directo."

/-- `POST /api/start`: insert the game row (`eInsert` injects a failure of
that insert), call both backends concurrently on an empty history with the
intro trigger, substitute the fixed placeholder for a rejected branch, save
both intro messages (`eSave1`/`eSave2` inject save failures, caught by the
surrounding `try`), and answer 200 with both texts. -/
def postStart (systemPrompt : String) (eInsert : Option String)
    (backend1 backend2 : List ChatMsg → Settled)
    (eSave1 eSave2 : Option String) (s : Store) : Http × Store :=
  match eInsert with
  | some err => (⟨500, .error err⟩, s)
  | none =>
    let gameId := s.nextGameId
    let s := { s with
      games := s.games ++ [⟨gameId, systemPrompt, s.now⟩],
      nextGameId := s.nextGameId + 1 }
    let intro1 := settleIntro (backend1 (callLlamaFastViaGroqMessages systemPrompt [] introTrigger))
    let intro2 := settleIntro (backend2 (callLlamaSmartViaGroqMessages systemPrompt [] introTrigger))
    match eSave1 with
    | some _ => (⟨500, .error "Error generando introducción"⟩, s)
    | none =>
      let s := saveMessage gameId 1 "model" intro1 s
      match eSave2 with
      | some _ => (⟨500, .error "Error generando introducción"⟩, s)
      | none =>
        let s := saveMessage gameId 2 "model" intro2 s
        (⟨200, .startOk gameId "Partida iniciada" intro1 intro2⟩, s)

/-- The store as the turn handler leaves it right after persisting the
branch-0 user row, before either model call is issued. -/
def turnSavedStore (gameId : Nat) (userAction : String) (s : Store) : Store :=
  saveMessage gameId 0 "user" userAction s

/-- `POST /api/turn`: look the game up (`eGet` injects a lookup failure;
absence answers 404), persist the branch-0 user row (`eSave0` injects its
failure), read both branch histories from the updated store (`eHist1` /
`eHist2` inject failures of the two `db.all` reads; the user row is already
persisted when they reject), call both backends concurrently, substitute
`"Error: " + reason` for a rejected branch, persist both replies (`eSave1` /
`eSave2`), and answer 200 with both texts.  Every injected store error
reaches the surrounding `catch` and answers 500 with the error message. -/
def postTurn (gameId : Nat) (userAction : String) (eGet : Option String)
    (backend1 backend2 : List ChatMsg → Settled)
    (eSave0 eHist1 eHist2 eSave1 eSave2 : Option String) (s : Store) : Http × Store :=
  match eGet with
  | some err => (⟨500, .error err⟩, s)
  | none =>
    match s.games.find? (fun g => g.id == gameId) with
    | none => (⟨404, .error "Partida no encontrada"⟩, s)
    | some game =>
      match eSave0 with
      | some err => (⟨500, .error err⟩, s)
      | none =>
        let s := turnSavedStore gameId userAction s
        match eHist1 with
        | some err => (⟨500, .error err⟩, s)
        | none =>
          let history1 := getHistory gameId 1 s
          match eHist2 with
          | some err => (⟨500, .error err⟩, s)
          | none =>
            let history2 := getHistory gameId 2 s
            let response1 := settleTurn
              (backend1 (callLlamaFastViaGroqMessages game.system_prompt history1 userAction))
            let response2 := settleTurn
              (backend2 (callLlamaSmartViaGroqMessages game.system_prompt history2 userAction))
            match eSave1 with
            | some err => (⟨500, .error err⟩, s)
            | none =>
              let s := saveMessage gameId 1 "model" response1 s
              match eSave2 with
              | some err => (⟨500, .error err⟩, s)
              | none =>
                let s := saveMessage gameId 2 "model" response2 s
                (⟨200, .turnOk response1 response2⟩, s)

/-- `GET /api/history/:gameId`: `SELECT * FROM messages WHERE game_id = ?
ORDER BY timestamp ASC`, or 500 on a store error. -/
def getHistoryEndpoint (gameId : Nat) (e : Option String) (s : Store) : Http :=
  match e with
  | some err => ⟨500, .error err⟩
  | none =>
    ⟨200, .rows (List.insertionSort msgTimeLe (s.messages.filter fun m => m.game_id == gameId))⟩

/-- `GET /api/games`: `SELECT id, created_at, system_prompt FROM games ORDER
BY created_at DESC`, or 500 on a store error. -/
def getGamesEndpoint (e : Option String) (s : Store) : Http :=
  match e with
  | some err => ⟨500, .error err⟩
  | none => ⟨200, .games (List.insertionSort gameCreatedDesc s.games)⟩

/-- First step of the delete handler: `DELETE FROM messages WHERE game_id = ?`. -/
def runDeleteMessages (id : Nat) (s : Store) : Store :=
  { s with messages := s.messages.filter fun m => m.game_id != id }

/-- Second step of the delete handler: `DELETE FROM games WHERE id = ?`. -/
def runDeleteGame (id : Nat) (s : Store) : Store :=
  { s with games := s.games.filter fun g => g.id != id }

/-- `DELETE /api/games/:id`: delete the messages first — an error there is
only logged (`console.error`) and the handler proceeds with the store
unchanged — then delete the game row; an error there answers 500, success
answers 200 with `deleted` = `this.changes` of the final delete, i.e. the
number of game rows the second `DELETE` removed. -/
def deleteGameEndpoint (id : Nat) (e1 e2 : Option String) (s : Store) : Http × Store :=
  let s1 := match e1 with
    | some _ => s
    | none => runDeleteMessages id s
  match e2 with
  | some err => (⟨500, .error err⟩, s1)
  | none =>
    let changes := (s1.games.filter fun g => g.id == id).length
    (⟨200, .deleteOk "Partida eliminada" changes⟩, runDeleteGame id s1)

/-- Invariant of every store reachable from the empty database: message rows
are listed in strictly increasing `id` order and every `id` is below the
auto-increment counter. -/
def Store.WF (s : Store) : Prop :=
  s.messages.Sorted msgLt ∧ ∀ m ∈ s.messages, m.id < s.nextMsgId

instance (s : Store) : Decidable s.WF := by
  unfold Store.WF List.Sorted
  infer_instance

/-! ### Invariant lemmas -/

theorem sorted_msgLe_of_lt {l : List Message} (h : l.Sorted msgLt) : l.Sorted msgLe :=
  h.imp fun hab => Nat.le_of_lt hab

/-- On an id-sorted store, the `ORDER BY id ASC` of `getHistory`'s query is
the identity on the filtered rows. -/
theorem historyRows_eq_filter (gameId dmId : Nat) (s : Store) (h : s.messages.Sorted msgLt) :
    historyRows gameId dmId s
      = s.messages.filter (fun m => m.game_id == gameId && (m.dm_id == 0 || m.dm_id == dmId)) :=
  List.Sorted.insertionSort_eq (sorted_msgLe_of_lt (h.filter _))

/-- `saveMessage` preserves the reachability invariant. -/
theorem Store.WF.saveMessage_wf {s : Store} (h : s.WF) (gameId dmId : Nat)
    (role content : String) : (saveMessage gameId dmId role content s).WF := by
  obtain ⟨hs, hb⟩ := h
  constructor
  · show ((s.messages ++ [_]).Sorted msgLt)
    rw [List.Sorted, List.pairwise_append]
    refine ⟨hs, List.pairwise_singleton _ _, ?_⟩
    intro a ha b hb'
    rw [List.mem_singleton] at hb'
    subst hb'
    exact hb a ha
  · intro m hm
    rw [saveMessage, List.mem_append, List.mem_singleton] at hm
    rcases hm with hm | hm
    · exact Nat.lt_succ_of_lt (hb m hm)
    · subst hm; exact Nat.lt_succ_self _

/-! ### C3: history assembler -/

/-- C3: for every game id and branch id, `getHistory` returns exactly the
`role`/`content` projections of the stored messages whose branch id is 0 or
equals the requested branch, ordered by message id ascending (a permutation
of the filtered rows, sorted by id); being a pure function of the store, it
performs no mutation. -/
theorem getHistory_assembles_branch_view (gameId dmId : Nat) (s : Store) :
    getHistory gameId dmId s
      = (historyRows gameId dmId s).map (fun m => (⟨m.role, m.content⟩ : ChatMsg))
    ∧ (historyRows gameId dmId s).Perm
        (s.messages.filter fun m => m.game_id == gameId && (m.dm_id == 0 || m.dm_id == dmId))
    ∧ (historyRows gameId dmId s).Sorted msgLe :=
  ⟨rfl, List.perm_insertionSort _ _, List.sorted_insertionSort msgLe _⟩

/-! ### C5: the two branch views share exactly the branch-0 rows -/

/-- C5: on a reachable store, the branch-1 and branch-2 history views contain
the identical branch-0 rows in identical order — exactly the game's branch-0
messages, none duplicated or omitted — and differ only in their branch-1-only
versus branch-2-only rows. -/
theorem history_views_share_branch0 (g : Nat) (s : Store) (h : s.WF) :
    (historyRows g 1 s).filter (fun m => m.dm_id == 0)
        = (historyRows g 2 s).filter (fun m => m.dm_id == 0)
    ∧ (historyRows g 1 s).filter (fun m => m.dm_id == 0)
        = s.messages.filter (fun m => m.game_id == g && m.dm_id == 0)
    ∧ (historyRows g 1 s).filter (fun m => !(m.dm_id == 0))
        = s.messages.filter (fun m => m.game_id == g && m.dm_id == 1)
    ∧ (historyRows g 2 s).filter (fun m => !(m.dm_id == 0))
        = s.messages.filter (fun m => m.game_id == g && m.dm_id == 2) := by
  have h1 := historyRows_eq_filter g 1 s h.1
  have h2 := historyRows_eq_filter g 2 s h.1
  have a10 : (historyRows g 1 s).filter (fun m => m.dm_id == 0)
      = s.messages.filter (fun m => m.game_id == g && m.dm_id == 0) := by
    rw [h1, List.filter_filter]
    apply List.filter_congr
    intro m _
    cases hd0 : (m.dm_id == 0) <;> cases hd1 : (m.dm_id == 1) <;>
      cases hgg : (m.game_id == g) <;> simp_all
  have a20 : (historyRows g 2 s).filter (fun m => m.dm_id == 0)
      = s.messages.filter (fun m => m.game_id == g && m.dm_id == 0) := by
    rw [h2, List.filter_filter]
    apply List.filter_congr
    intro m _
    cases hd0 : (m.dm_id == 0) <;> cases hd2 : (m.dm_id == 2) <;>
      cases hgg : (m.game_id == g) <;> simp_all
  have a11 : (historyRows g 1 s).filter (fun m => !(m.dm_id == 0))
      = s.messages.filter (fun m => m.game_id == g && m.dm_id == 1) := by
    rw [h1, List.filter_filter]
    apply List.filter_congr
    intro m _
    cases hd0 : (m.dm_id == 0) <;> cases hd1 : (m.dm_id == 1) <;>
      cases hgg : (m.game_id == g) <;> simp_all
  have a21 : (historyRows g 2 s).filter (fun m => !(m.dm_id == 0))
      = s.messages.filter (fun m => m.game_id == g && m.dm_id == 2) := by
    rw [h2, List.filter_filter]
    apply List.filter_congr
    intro m _
    cases hd0 : (m.dm_id == 0) <;> cases hd2 : (m.dm_id == 2) <;>
      cases hgg : (m.game_id == g) <;> simp_all
  exact ⟨a10.trans a20.symm, a10, a11, a21⟩

/-! ### C6: the user row is persisted before either model call -/

/-- C6: on a reachable store, the histories the turn handler assembles for
branch 1 and branch 2 — both computed from `turnSavedStore`, the store as it
stands after the branch-0 user row is persisted and before either model call
is issued — end with the current user message. -/
theorem turn_histories_include_user (g : Nat) (a : String) (s : Store) (h : s.WF) :
    (getHistory g 1 (turnSavedStore g a s)).getLast? = some ⟨"user", a⟩
    ∧ (getHistory g 2 (turnSavedStore g a s)).getLast? = some ⟨"user", a⟩ := by
  have hwf : (turnSavedStore g a s).WF := h.saveMessage_wf g 0 "user" a
  constructor <;>
  · rw [getHistory, historyRows_eq_filter _ _ _ hwf.1]
    show ((List.filter _ (s.messages ++ [_])).map _).getLast? = _
    rw [List.filter_append, List.map_append]
    rw [show List.filter _ [(⟨s.nextMsgId, g, 0, "user", a, s.now⟩ : Message)]
          = [⟨s.nextMsgId, g, 0, "user", a, s.now⟩] by simp]
    simp [List.getLast?_concat]

/-! ### C1: partial model failure still yields a 200 turn -/

/-- C1: when exactly one of the two concurrent model calls rejects and the
other fulfills, the turn handler still answers HTTP 200 carrying the
substituted `"Error: " ++ reason` string and the real model text, and both
strings are persisted as message rows; the failing branch never fails the
turn.  Both orientations (branch 1 fails / branch 2 fails) are covered. -/
theorem turn_tolerates_single_failure (g : Nat) (a reason text : String) (s : Store)
    (game : Game) (hfind : s.games.find? (fun x => x.id == g) = some game) :
    (postTurn g a none (fun _ => .rejected reason) (fun _ => .fulfilled text)
        none none none none none s).fst = ⟨200, .turnOk ("Error: " ++ reason) text⟩
    ∧ (postTurn g a none (fun _ => .rejected reason) (fun _ => .fulfilled text)
        none none none none none s).snd.messages
      = s.messages ++ [⟨s.nextMsgId, g, 0, "user", a, s.now⟩,
          ⟨s.nextMsgId + 1, g, 1, "model", "Error: " ++ reason, s.now⟩,
          ⟨s.nextMsgId + 2, g, 2, "model", text, s.now⟩]
    ∧ (postTurn g a none (fun _ => .fulfilled text) (fun _ => .rejected reason)
        none none none none none s).fst = ⟨200, .turnOk text ("Error: " ++ reason)⟩
    ∧ (postTurn g a none (fun _ => .fulfilled text) (fun _ => .rejected reason)
        none none none none none s).snd.messages
      = s.messages ++ [⟨s.nextMsgId, g, 0, "user", a, s.now⟩,
          ⟨s.nextMsgId + 1, g, 1, "model", text, s.now⟩,
          ⟨s.nextMsgId + 2, g, 2, "model", "Error: " ++ reason, s.now⟩] := by
  refine ⟨?_, ?_, ?_, ?_⟩ <;>
    simp [postTurn, hfind, settleTurn, turnSavedStore, saveMessage]

/-! ### C2: every successful turn appends exactly three rows in order -/

/-- C2: every successful turn on an existing game appends, in order, exactly
one branch-0 user row holding the submitted action and then one branch-1 and
one branch-2 model row, whatever the two model calls settled to. -/
theorem turn_appends_three_rows (g : Nat) (a : String) (s : Store) (game : Game)
    (backend1 backend2 : List ChatMsg → Settled)
    (hfind : s.games.find? (fun x => x.id == g) = some game) :
    (postTurn g a none backend1 backend2 none none none none none s).fst.status = 200
    ∧ ∃ c1 c2 : String,
      (postTurn g a none backend1 backend2 none none none none none s).snd.messages
        = s.messages ++ [⟨s.nextMsgId, g, 0, "user", a, s.now⟩,
            ⟨s.nextMsgId + 1, g, 1, "model", c1, s.now⟩,
            ⟨s.nextMsgId + 2, g, 2, "model", c2, s.now⟩] := by
  refine ⟨by simp [postTurn, hfind],
    settleTurn (backend1 (callLlamaFastViaGroqMessages game.system_prompt
      (getHistory g 1 (turnSavedStore g a s)) a)),
    settleTurn (backend2 (callLlamaSmartViaGroqMessages game.system_prompt
      (getHistory g 2 (turnSavedStore g a s)) a)),
    by simp [postTurn, hfind, turnSavedStore, saveMessage]⟩

/-! ### C4: shape of the submitted message sequence -/

theorem pushHistory_eq_map :
    ∀ (history acc : List ChatMsg),
      (history.foldl (fun acc msg =>
          let role := if msg.role = "model" then "assistant" else msg.role
          acc ++ [(⟨role, msg.content⟩ : ChatMsg)]) acc)
        = acc ++ history.map (fun msg =>
            (⟨if msg.role = "model" then "assistant" else msg.role, msg.content⟩ : ChatMsg))
  | [], acc => by simp
  | m :: t, acc => by
    rw [List.foldl_cons, pushHistory_eq_map t]
    simp

/-- C4: both backend invocations submit the system prompt first, then the
assembled branch history in order with every stored role `model` rewritten to
`assistant` and other roles unchanged, then the current user input last. -/
theorem backend_message_sequence (system currentInput : String) (history : List ChatMsg) :
    callLlamaFastViaGroqMessages system history currentInput
      = ⟨"system", system⟩
          :: (history.map fun msg =>
              (⟨if msg.role = "model" then "assistant" else msg.role, msg.content⟩ : ChatMsg))
          ++ [⟨"user", currentInput⟩]
    ∧ callLlamaSmartViaGroqMessages system history currentInput
      = ⟨"system", system⟩
          :: (history.map fun msg =>
              (⟨if msg.role = "model" then "assistant" else msg.role, msg.content⟩ : ChatMsg))
          ++ [⟨"user", currentInput⟩] := by
  refine ⟨?_, ?_⟩ <;>
    simp only [callLlamaFastViaGroqMessages, callLlamaSmartViaGroqMessages,
      pushHistory_eq_map] <;> simp

/-! ### C10: the branch-1 row of an operation gets the smaller id -/

/-- C10: within one game creation and within one turn, the branch-1 model row
is inserted before the branch-2 model row, so it receives the strictly
smaller id. -/
theorem branch1_row_precedes_branch2 (sp : String) (g : Nat) (a : String) (s : Store)
    (game : Game) (b1 b2 : List ChatMsg → Settled)
    (hfind : s.games.find? (fun x => x.id == g) = some game) :
    (∃ c1 c2 : String,
      (postStart sp none b1 b2 none none s).snd.messages
        = s.messages ++ [⟨s.nextMsgId, s.nextGameId, 1, "model", c1, s.now⟩,
            ⟨s.nextMsgId + 1, s.nextGameId, 2, "model", c2, s.now⟩]
      ∧ s.nextMsgId < s.nextMsgId + 1)
    ∧ (∃ c1 c2 : String,
      (postTurn g a none b1 b2 none none none none none s).snd.messages
        = s.messages ++ [⟨s.nextMsgId, g, 0, "user", a, s.now⟩,
            ⟨s.nextMsgId + 1, g, 1, "model", c1, s.now⟩,
            ⟨s.nextMsgId + 2, g, 2, "model", c2, s.now⟩]
      ∧ s.nextMsgId + 1 < s.nextMsgId + 2) := by
  constructor
  · exact ⟨settleIntro (b1 (callLlamaFastViaGroqMessages sp [] introTrigger)),
      settleIntro (b2 (callLlamaSmartViaGroqMessages sp [] introTrigger)),
      by simp [postStart, saveMessage], Nat.lt_succ_self _⟩
  · exact ⟨settleTurn (b1 (callLlamaFastViaGroqMessages game.system_prompt
        (getHistory g 1 (turnSavedStore g a s)) a)),
      settleTurn (b2 (callLlamaSmartViaGroqMessages game.system_prompt
        (getHistory g 2 (turnSavedStore g a s)) a)),
      by simp [postTurn, hfind, turnSavedStore, saveMessage], Nat.lt_succ_self _⟩

/-! ### C7: substituted placeholders on model-call failure -/

/-- `text` incorporates `reason` when `reason` occurs verbatim inside `text`. -/
def incorporates (text reason : String) : Prop := reason.data <:+: text.data

instance (t r : String) : Decidable (incorporates t r) := by
  unfold incorporates
  infer_instance

/-- An empty freshly-created database. -/
def exStore0 : Store := ⟨[], [], 1, 1, 0⟩

/-- Counterexample to C7: in game-creation intro processing a rejected model
call (here with reason `"boom"`) is substituted with the fixed placeholder
`"Error generando intro."`, which is returned and persisted but does not
incorporate the failure reason. -/
theorem intro_placeholder_ignores_reason :
    (postStart "S" none (fun _ => .rejected "boom") (fun _ => .fulfilled "ok")
        none none exStore0).fst
      = ⟨200, .startOk 1 "Partida iniciada" "Error generando intro." "ok"⟩
    ∧ (⟨1, 1, 1, "model", "Error generando intro.", 0⟩ : Message)
        ∈ (postStart "S" none (fun _ => .rejected "boom") (fun _ => .fulfilled "ok")
            none none exStore0).snd.messages
    ∧ ¬ incorporates "Error generando intro." "boom" := by
  refine ⟨by decide, by decide, by decide⟩

/-- C7 as amended: a rejected model call never fails the request; in turn
processing the substituted placeholder is `"Error: " ++ reason`, which
incorporates the failure reason and is both returned and persisted, while in
game-creation intro processing the substituted placeholder is the fixed
string `"Error generando intro."`, which does not depend on the reason yet is
likewise returned and persisted in place of model output.  All four failing
positions (branch 1 / branch 2, turn / intro) are covered. -/
theorem failure_placeholders_substituted (g : Nat) (a sp reason : String) (s : Store)
    (game : Game) (bk : List ChatMsg → Settled)
    (hfind : s.games.find? (fun x => x.id == g) = some game) :
    ((postTurn g a none (fun _ => .rejected reason) bk none none none none none s).fst
        = ⟨200, .turnOk ("Error: " ++ reason)
            (settleTurn (bk (callLlamaSmartViaGroqMessages game.system_prompt
              (getHistory g 2 (turnSavedStore g a s)) a)))⟩
      ∧ (⟨s.nextMsgId + 1, g, 1, "model", "Error: " ++ reason, s.now⟩ : Message)
          ∈ (postTurn g a none (fun _ => .rejected reason) bk none none none none none s).snd.messages)
    ∧ ((postTurn g a none bk (fun _ => .rejected reason) none none none none none s).fst
        = ⟨200, .turnOk
            (settleTurn (bk (callLlamaFastViaGroqMessages game.system_prompt
              (getHistory g 1 (turnSavedStore g a s)) a))) ("Error: " ++ reason)⟩
      ∧ (⟨s.nextMsgId + 2, g, 2, "model", "Error: " ++ reason, s.now⟩ : Message)
          ∈ (postTurn g a none bk (fun _ => .rejected reason) none none none none none s).snd.messages)
    ∧ incorporates ("Error: " ++ reason) reason
    ∧ ((postStart sp none (fun _ => .rejected reason) bk none none s).fst
        = ⟨200, .startOk s.nextGameId "Partida iniciada" "Error generando intro."
            (settleIntro (bk (callLlamaSmartViaGroqMessages sp [] introTrigger)))⟩
      ∧ (⟨s.nextMsgId, s.nextGameId, 1, "model", "Error generando intro.", s.now⟩ : Message)
          ∈ (postStart sp none (fun _ => .rejected reason) bk none none s).snd.messages)
    ∧ ((postStart sp none bk (fun _ => .rejected reason) none none s).fst
        = ⟨200, .startOk s.nextGameId "Partida iniciada"
            (settleIntro (bk (callLlamaFastViaGroqMessages sp [] introTrigger)))
            "Error generando intro."⟩
      ∧ (⟨s.nextMsgId + 1, s.nextGameId, 2, "model", "Error generando intro.", s.now⟩ : Message)
          ∈ (postStart sp none bk (fun _ => .rejected reason) none none s).snd.messages) := by
  refine ⟨⟨?_, ?_⟩, ⟨?_, ?_⟩, ⟨"Error: ".data, [], by simp⟩, ⟨?_, ?_⟩, ⟨?_, ?_⟩⟩ <;>
    simp [postTurn, postStart, hfind, settleTurn, settleIntro, turnSavedStore, saveMessage]

/-! ### C8: which store errors surface as HTTP 500 -/

/-- A database holding one game with one intro message. -/
def exStore1 : Store :=
  ⟨[⟨1, "You are a pirate DM", 0⟩], [⟨1, 1, 1, "model", "intro", 0⟩], 2, 2, 1⟩

/-- Counterexample to C8: an error from the delete-messages step of
`DELETE /api/games/:id` is logged and ignored, not surfaced as HTTP 500 —
the request answers 200 and the game's messages survive. -/
theorem delete_messages_error_ignored :
    (deleteGameEndpoint 1 (some "SQLITE_BUSY: database is locked") none exStore1).fst.status
      = 200
    ∧ ¬ (deleteGameEndpoint 1 (some "SQLITE_BUSY: database is locked") none exStore1).fst.status
      = 500
    ∧ (deleteGameEndpoint 1 (some "SQLITE_BUSY: database is locked") none exStore1).snd.messages
      = [⟨1, 1, 1, "model", "intro", 0⟩] := by
  refine ⟨by decide, by decide, by decide⟩

/-- C8 as amended: every persistence-operation error terminates its request
with HTTP 500 — the lookup, the user save, the two history reads and the two
reply saves of `POST /api/turn`, the insert and both save steps of
`POST /api/start`, both read endpoints, and the final game-delete step of
`DELETE /api/games/:id` — except the delete-messages step of
`DELETE /api/games/:id`, whose error is only logged: the handler proceeds
with the messages intact and answers 200 when the game-delete step
succeeds. -/
theorem store_errors_surface_500 (err sp a : String) (gid id : Nat) (s : Store)
    (game : Game) (b1 b2 : List ChatMsg → Settled) (e1 e2 e3 e4 e5 : Option String)
    (hfind : s.games.find? (fun x => x.id == gid) = some game) :
    (getHistoryEndpoint gid (some err) s).status = 500
    ∧ (getGamesEndpoint (some err) s).status = 500
    ∧ (postStart sp (some err) b1 b2 e1 e2 s).fst.status = 500
    ∧ (postStart sp none b1 b2 (some err) e2 s).fst.status = 500
    ∧ (postStart sp none b1 b2 none (some err) s).fst.status = 500
    ∧ (postTurn gid a (some err) b1 b2 e1 e2 e3 e4 e5 s).fst.status = 500
    ∧ (postTurn gid a none b1 b2 (some err) e2 e3 e4 e5 s).fst.status = 500
    ∧ (postTurn gid a none b1 b2 none (some err) e3 e4 e5 s).fst.status = 500
    ∧ (postTurn gid a none b1 b2 none none (some err) e4 e5 s).fst.status = 500
    ∧ (postTurn gid a none b1 b2 none none none (some err) e5 s).fst.status = 500
    ∧ (postTurn gid a none b1 b2 none none none none (some err) s).fst.status = 500
    ∧ (deleteGameEndpoint id e1 (some err) s).fst.status = 500
    ∧ (deleteGameEndpoint id (some err) none s).fst.status = 200
    ∧ (deleteGameEndpoint id (some err) none s).snd.messages = s.messages := by
  refine ⟨rfl, rfl, rfl, rfl, rfl, rfl, ?_, ?_, ?_, ?_, ?_, ?_, ?_, ?_⟩ <;>
    simp [postTurn, hfind, deleteGameEndpoint, runDeleteGame]

/-! ### C9: successful deletion removes the game and all its messages -/

/-- C9: a successful `DELETE /api/games/:id` answers 200 with `deleted` equal
to the row count of the final game-table delete, leaves no message row owned
by the game (so a subsequent history fetch returns the empty list), leaves no
game row with that id, and reaches its final store by deleting the messages
first and the game row second. -/
theorem delete_game_removes_everything (id : Nat) (s : Store) :
    (deleteGameEndpoint id none none s).fst
      = ⟨200, .deleteOk "Partida eliminada" ((s.games.filter fun gm => gm.id == id).length)⟩
    ∧ (deleteGameEndpoint id none none s).snd = runDeleteGame id (runDeleteMessages id s)
    ∧ (deleteGameEndpoint id none none s).snd.messages.filter (fun m => m.game_id == id) = []
    ∧ getHistoryEndpoint id none (deleteGameEndpoint id none none s).snd = ⟨200, .rows []⟩
    ∧ (deleteGameEndpoint id none none s).snd.games.filter (fun gm => gm.id == id) = [] := by
  have hmsg : (deleteGameEndpoint id none none s).snd.messages.filter
      (fun m => m.game_id == id) = [] := by
    show ((s.messages.filter _).filter _) = []
    rw [List.filter_filter]
    simp [bne]
  refine ⟨rfl, rfl, hmsg, ?_, ?_⟩
  · rw [getHistoryEndpoint]
    rw [show (deleteGameEndpoint id none none s).snd.messages.filter
        (fun m => m.game_id == id) = [] from hmsg]
    rfl
  · show ((s.games.filter _).filter _) = []
    rw [List.filter_filter]
    simp [bne]

/-! ### Concrete witnesses -/

/-- The game row held by `exStore1`. -/
def exGame1 : Game := ⟨1, "You are a pirate DM", 0⟩

theorem turn_tolerates_single_failure_witness :
    exStore1.games.find? (fun x => x.id == 1) = some exGame1
    ∧ ((postTurn 1 "I open the door" none (fun _ => .rejected "boom")
          (fun _ => .fulfilled "tale") none none none none none exStore1).fst
        = ⟨200, .turnOk ("Error: " ++ "boom") "tale"⟩
      ∧ (postTurn 1 "I open the door" none (fun _ => .rejected "boom")
          (fun _ => .fulfilled "tale") none none none none none exStore1).snd.messages
        = exStore1.messages
            ++ [⟨exStore1.nextMsgId, 1, 0, "user", "I open the door", exStore1.now⟩,
              ⟨exStore1.nextMsgId + 1, 1, 1, "model", "Error: " ++ "boom", exStore1.now⟩,
              ⟨exStore1.nextMsgId + 2, 1, 2, "model", "tale", exStore1.now⟩]
      ∧ (postTurn 1 "I open the door" none (fun _ => .fulfilled "tale")
          (fun _ => .rejected "boom") none none none none none exStore1).fst
        = ⟨200, .turnOk "tale" ("Error: " ++ "boom")⟩
      ∧ (postTurn 1 "I open the door" none (fun _ => .fulfilled "tale")
          (fun _ => .rejected "boom") none none none none none exStore1).snd.messages
        = exStore1.messages
            ++ [⟨exStore1.nextMsgId, 1, 0, "user", "I open the door", exStore1.now⟩,
              ⟨exStore1.nextMsgId + 1, 1, 1, "model", "tale", exStore1.now⟩,
              ⟨exStore1.nextMsgId + 2, 1, 2, "model", "Error: " ++ "boom", exStore1.now⟩]) :=
  ⟨by decide,
    turn_tolerates_single_failure 1 "I open the door" "boom" "tale" exStore1 exGame1 (by decide)⟩

theorem turn_appends_three_rows_witness :
    exStore1.games.find? (fun x => x.id == 1) = some exGame1
    ∧ ((postTurn 1 "go" none (fun _ => .fulfilled "t1") (fun _ => .rejected "r2")
          none none none none none exStore1).fst.status = 200
      ∧ ∃ c1 c2 : String,
        (postTurn 1 "go" none (fun _ => .fulfilled "t1") (fun _ => .rejected "r2")
            none none none none none exStore1).snd.messages
          = exStore1.messages ++ [⟨exStore1.nextMsgId, 1, 0, "user", "go", exStore1.now⟩,
              ⟨exStore1.nextMsgId + 1, 1, 1, "model", c1, exStore1.now⟩,
              ⟨exStore1.nextMsgId + 2, 1, 2, "model", c2, exStore1.now⟩]) :=
  ⟨by decide,
    turn_appends_three_rows 1 "go" exStore1 exGame1
      (fun _ => .fulfilled "t1") (fun _ => .rejected "r2") (by decide)⟩

theorem history_views_share_branch0_witness :
    exStore1.WF
    ∧ ((historyRows 1 1 exStore1).filter (fun m => m.dm_id == 0)
          = (historyRows 1 2 exStore1).filter (fun m => m.dm_id == 0)
      ∧ (historyRows 1 1 exStore1).filter (fun m => m.dm_id == 0)
          = exStore1.messages.filter (fun m => m.game_id == 1 && m.dm_id == 0)
      ∧ (historyRows 1 1 exStore1).filter (fun m => !(m.dm_id == 0))
          = exStore1.messages.filter (fun m => m.game_id == 1 && m.dm_id == 1)
      ∧ (historyRows 1 2 exStore1).filter (fun m => !(m.dm_id == 0))
          = exStore1.messages.filter (fun m => m.game_id == 1 && m.dm_id == 2)) :=
  ⟨by decide, history_views_share_branch0 1 exStore1 (by decide)⟩

theorem turn_histories_include_user_witness :
    exStore1.WF
    ∧ ((getHistory 1 1 (turnSavedStore 1 "I open the door" exStore1)).getLast?
          = some ⟨"user", "I open the door"⟩
      ∧ (getHistory 1 2 (turnSavedStore 1 "I open the door" exStore1)).getLast?
          = some ⟨"user", "I open the door"⟩) :=
  ⟨by decide, turn_histories_include_user 1 "I open the door" exStore1 (by decide)⟩

theorem failure_placeholders_substituted_witness :
    exStore1.games.find? (fun x => x.id == 1) = some exGame1
    ∧ (((postTurn 1 "go" none (fun _ => .rejected "boom") (fun _ => .fulfilled "ok")
            none none none none none exStore1).fst
          = ⟨200, .turnOk ("Error: " ++ "boom") "ok"⟩
        ∧ (⟨exStore1.nextMsgId + 1, 1, 1, "model", "Error: " ++ "boom", exStore1.now⟩ : Message)
            ∈ (postTurn 1 "go" none (fun _ => .rejected "boom") (fun _ => .fulfilled "ok")
                none none none none none exStore1).snd.messages)
      ∧ ((postTurn 1 "go" none (fun _ => .fulfilled "ok") (fun _ => .rejected "boom")
            none none none none none exStore1).fst
          = ⟨200, .turnOk "ok" ("Error: " ++ "boom")⟩
        ∧ (⟨exStore1.nextMsgId + 2, 1, 2, "model", "Error: " ++ "boom", exStore1.now⟩ : Message)
            ∈ (postTurn 1 "go" none (fun _ => .fulfilled "ok") (fun _ => .rejected "boom")
                none none none none none exStore1).snd.messages)
      ∧ incorporates ("Error: " ++ "boom") "boom"
      ∧ ((postStart "S" none (fun _ => .rejected "boom") (fun _ => .fulfilled "ok")
            none none exStore1).fst
          = ⟨200, .startOk exStore1.nextGameId "Partida iniciada" "Error generando intro." "ok"⟩
        ∧ (⟨exStore1.nextMsgId, exStore1.nextGameId, 1, "model", "Error generando intro.",
              exStore1.now⟩ : Message)
            ∈ (postStart "S" none (fun _ => .rejected "boom") (fun _ => .fulfilled "ok")
                none none exStore1).snd.messages)
      ∧ ((postStart "S" none (fun _ => .fulfilled "ok") (fun _ => .rejected "boom")
            none none exStore1).fst
          = ⟨200, .startOk exStore1.nextGameId "Partida iniciada" "ok" "Error generando intro."⟩
        ∧ (⟨exStore1.nextMsgId + 1, exStore1.nextGameId, 2, "model", "Error generando intro.",
              exStore1.now⟩ : Message)
            ∈ (postStart "S" none (fun _ => .fulfilled "ok") (fun _ => .rejected "boom")
                none none exStore1).snd.messages)) :=
  ⟨by decide,
    failure_placeholders_substituted 1 "go" "S" "boom" exStore1 exGame1
      (fun _ => .fulfilled "ok") (by decide)⟩

theorem store_errors_surface_500_witness :
    exStore1.games.find? (fun x => x.id == 1) = some exGame1
    ∧ ((getHistoryEndpoint 1 (some "E") exStore1).status = 500
      ∧ (getGamesEndpoint (some "E") exStore1).status = 500
      ∧ (postStart "S" (some "E") (fun _ => .fulfilled "ok") (fun _ => .fulfilled "ok")
          none none exStore1).fst.status = 500
      ∧ (postStart "S" none (fun _ => .fulfilled "ok") (fun _ => .fulfilled "ok")
          (some "E") none exStore1).fst.status = 500
      ∧ (postStart "S" none (fun _ => .fulfilled "ok") (fun _ => .fulfilled "ok")
          none (some "E") exStore1).fst.status = 500
      ∧ (postTurn 1 "go" (some "E") (fun _ => .fulfilled "ok") (fun _ => .fulfilled "ok")
          none none none none none exStore1).fst.status = 500
      ∧ (postTurn 1 "go" none (fun _ => .fulfilled "ok") (fun _ => .fulfilled "ok")
          (some "E") none none none none exStore1).fst.status = 500
      ∧ (postTurn 1 "go" none (fun _ => .fulfilled "ok") (fun _ => .fulfilled "ok")
          none (some "E") none none none exStore1).fst.status = 500
      ∧ (postTurn 1 "go" none (fun _ => .fulfilled "ok") (fun _ => .fulfilled "ok")
          none none (some "E") none none exStore1).fst.status = 500
      ∧ (postTurn 1 "go" none (fun _ => .fulfilled "ok") (fun _ => .fulfilled "ok")
          none none none (some "E") none exStore1).fst.status = 500
      ∧ (postTurn 1 "go" none (fun _ => .fulfilled "ok") (fun _ => .fulfilled "ok")
          none none none none (some "E") exStore1).fst.status = 500
      ∧ (deleteGameEndpoint 1 none (some "E") exStore1).fst.status = 500
      ∧ (deleteGameEndpoint 1 (some "E") none exStore1).fst.status = 200
      ∧ (deleteGameEndpoint 1 (some "E") none exStore1).snd.messages = exStore1.messages) :=
  ⟨by decide,
    store_errors_surface_500 "E" "S" "go" 1 1 exStore1 exGame1
      (fun _ => .fulfilled "ok") (fun _ => .fulfilled "ok") none none none none none
      (by decide)⟩

theorem branch1_row_precedes_branch2_witness :
    exStore1.games.find? (fun x => x.id == 1) = some exGame1
    ∧ ((∃ c1 c2 : String,
        (postStart "S" none (fun _ => .fulfilled "i1") (fun _ => .fulfilled "i2")
            none none exStore1).snd.messages
          = exStore1.messages
              ++ [⟨exStore1.nextMsgId, exStore1.nextGameId, 1, "model", c1, exStore1.now⟩,
                ⟨exStore1.nextMsgId + 1, exStore1.nextGameId, 2, "model", c2, exStore1.now⟩]
        ∧ exStore1.nextMsgId < exStore1.nextMsgId + 1)
      ∧ (∃ c1 c2 : String,
        (postTurn 1 "go" none (fun _ => .fulfilled "i1") (fun _ => .fulfilled "i2")
            none none none none none exStore1).snd.messages
          = exStore1.messages ++ [⟨exStore1.nextMsgId, 1, 0, "user", "go", exStore1.now⟩,
              ⟨exStore1.nextMsgId + 1, 1, 1, "model", c1, exStore1.now⟩,
              ⟨exStore1.nextMsgId + 2, 1, 2, "model", c2, exStore1.now⟩]
        ∧ exStore1.nextMsgId + 1 < exStore1.nextMsgId + 2)) :=
  ⟨by decide,
    branch1_row_precedes_branch2 "S" 1 "go" exStore1 exGame1
      (fun _ => .fulfilled "i1") (fun _ => .fulfilled "i2") (by decide)⟩
